import Mathlib

/-!
Verification of `niftynet/io/image_sets_partitioner.py`.

The module maintains a table of subject ids and their associated image file
names (`_file_list`, one row per subject, one column per input section), and a
partition table (`_partition_ids`, mapping subject id to one of the phases
train / validation / inference).  Pandas dataframes are modelled as a list of
rows carrying an explicit integer index (the pandas `RangeIndex`); csv files
are modelled as parsed two-column row lists; the filesystem is a partial map
from paths to file contents, where an unparseable file is represented by an
`Except.error` payload.  Randomness (`random.shuffle`) is modelled by an
explicit `shuffle` parameter, assumed in the theorems to permute its input.
Python floats are modelled by rationals.
-/

deriving instance DecidableEq for Except

namespace NiftyNet

def COLUMN_UNIQ_ID : String := "subject_id"

def COLUMN_PHASE : String := "phase"

def TRAIN : String := "train"

def VALID : String := "validation"

def INFER : String := "inference"

def ALL : String := "all"

/-- The supported phase names (a Python set in the source). -/
def SUPPORTED_PHASES : List String := [TRAIN, VALID, INFER, ALL]

/-- Kinds of Python exceptions raised by the module, with their message. -/
inductive Err where
  | valueError (msg : String)
  | ioError (msg : String)
  | attributeError (msg : String)
  | typeError (msg : String)
  | parseError (msg : String)
  | runtimeError (msg : String)
deriving Repr, DecidableEq

/-- Whether an error is of the IOError kind. -/
def Err.ioKind : Err → Bool
  | .ioError _ => true
  | _ => false

/-- A value appearing in the `ratios` pair: either a number or something
`float()` cannot convert. -/
inductive RatioVal where
  | num (q : ℚ)
  | nonNumeric (s : String)
deriving Repr, DecidableEq

/-- One input section configuration: `csv_file = none` models a config object
without the `csv_file` attribute (an `AttributeError` on access);
`path_to_search` models the optional search specification. -/
structure SectionConfig where
  csv_file : Option String
  path_to_search : Option String
deriving Repr, DecidableEq

/-- The parsed contents of a two-column csv file. -/
abbrev CsvRows := List (String × String)

/-- A file on disk: either parseable csv rows or a parse failure message. -/
abbrev FileContent := Except String CsvRows

/-- The filesystem: a partial map from paths to file contents. -/
abbrev Fs := String → Option FileContent

/-- Overwrite the file at `path`. -/
def fsWrite (fs : Fs) (path : String) (content : FileContent) : Fs :=
  fun q => if q = path then some content else fs q

/-- A pandas dataframe of file names: `sections` are the column names besides
`subject_id`; each row is (pandas integer index, subject id, per-section
values).  Tables produced by `read_csv` and `pandas.merge` carry a fresh
`RangeIndex` 0,1,2,..., built here with `List.enum`. -/
structure DataFrame where
  sections : List String
  rows : List (Nat × String × List String)
deriving Repr, DecidableEq

/-- Column names of the dataframe, `subject_id` first (`set(self._file_list)`
in the source iterates over column names). -/
def DataFrame.columns (df : DataFrame) : List String :=
  COLUMN_UNIQ_ID :: df.sections

/-- The `subject_id` column (`self._file_list[COLUMN_UNIQ_ID]`). -/
def DataFrame.subjectIds (df : DataFrame) : List String :=
  df.rows.map (fun r => r.2.1)

/-- Number of rows; also the non-null count of the `subject_id` column. -/
def DataFrame.nRows (df : DataFrame) : Nat := df.rows.length

/-- The pandas `.size` attribute: number of cells (rows times columns). -/
def DataFrame.size (df : DataFrame) : Nat :=
  df.rows.length * df.columns.length

/-- A dataframe as produced by `pandas.read_csv(csv_file, header=None,
names=[COLUMN_UNIQ_ID, modality_name])`, with a fresh `RangeIndex`. -/
def csvToTable (modality_name : String) (rows : CsvRows) : DataFrame :=
  { sections := [modality_name],
    rows := (rows.map (fun r => (r.1, [r.2]))).enum }

/-- The inner join `pandas.merge(self._file_list, modality_file_list,
on=COLUMN_UNIQ_ID)`: left row order is preserved, each left row is paired
with every right row carrying the same subject id, and the result gets a
fresh `RangeIndex`. -/
def mergeOn (df : DataFrame) (modality_name : String) (t : CsvRows) : DataFrame :=
  { sections := df.sections ++ [modality_name],
    rows := ((df.rows.map (fun r => r.2)).flatMap
      (fun r => (t.filter (fun s => s.1 = r.1)).map
        (fun s => (r.1, r.2 ++ [s.2])))).enum }

/-- The inner join `pandas.merge(self._file_list, selected, on=COLUMN_UNIQ_ID)`
where `selected` holds only a `subject_id` column. -/
def mergeSelect (df : DataFrame) (sel : List String) : DataFrame :=
  { sections := df.sections,
    rows := ((df.rows.map (fun r => r.2)).flatMap
      (fun r => (sel.filter (fun i => i = r.1)).map (fun _ => r))).enum }

/-- Insert a row into a list of rows kept sorted by the pandas integer index. -/
def insertByIdx (r : Nat × String × List String) :
    List (Nat × String × List String) → List (Nat × String × List String)
  | [] => [r]
  | x :: xs => if r.1 < x.1 then r :: x :: xs else x :: insertByIdx r xs

/-- The dataframe method `sort_index()`: sort rows by the pandas integer
index (not by `subject_id`). -/
def sortByIdx (l : List (Nat × String × List String)) :
    List (Nat × String × List String) :=
  l.foldr insertByIdx []

/-- Python `str.lower()` restricted to what the kernel can evaluate. -/
def strLower (s : String) : String := ⟨s.data.map Char.toLower⟩

/-- Modelled from the spec: `look_up_operations` (from
`niftynet.utilities.util_common`, not under `src/`) checks that a queried
value is one of the supported values and returns it unchanged; an unsupported
value is a fatal `ValueError`. -/
def look_up_operations (x : String) (supported : List String) :
    Except Err String :=
  if x ∈ supported then .ok x
  else .error (.valueError ("unsupported option " ++ x))

/-- The single `ImageSetsPartitioner` instance: its attributes. -/
structure Store where
  file_list : Option DataFrame
  partition_ids : Option (List (String × String))
  data_param : List (String × SectionConfig)
  ratios : Option (List RatioVal)
  new_partition : Bool
  data_split_file : String
deriving Repr, DecidableEq

/-- The method `number_of_subjects(phase)`: returns 0 with no file list;
otherwise validates the lower-cased phase, and counts the whole file list when
the phase is `all` or no partition table exists, else the partition rows whose
phase column matches. -/
def number_of_subjects (s : Store) (phase : String) : Except Err Nat :=
  match s.file_list with
  | none => .ok 0
  | some fl =>
    match look_up_operations (strLower phase) SUPPORTED_PHASES with
    | .error e => .error e
    | .ok ph =>
      if ph = ALL then .ok fl.nRows
      else
        match s.partition_ids with
        | none => .ok fl.nRows
        | some pt => .ok ((pt.filter (fun r => r.2 = ph)).length)

/-- Column selection `df[section_names]` for a single section name (the
validated form of the `section_names` argument). -/
def projectDf (df : DataFrame) (sname : Option String) : DataFrame :=
  match sname with
  | none => df
  | some n =>
    { sections := [n],
      rows := df.rows.map (fun r =>
        (r.1, r.2.1,
          match df.sections.findIdx? (fun c => c = n) with
          | some j => (r.2.2.get? j).toList
          | none => [])) }

/-- The method `get_file_list(phase, section_names)`.  Returns the possibly
updated store (the method re-assigns `self._file_list` on the `all` path), the
warnings emitted, and either a fatal error, `none` (the Python `None` returned
for an empty phase subset), or the selected dataframe. -/
def get_file_list (s : Store) (phase : String) (section_names : Option String) :
    Store × List String × Except Err (Option DataFrame) :=
  match s.file_list with
  | none =>
    (s, [], .error (.runtimeError
      "Empty file list, please initialise ImageSetsPartitioner first."))
  | some fl =>
    let sname : Option String :=
      match section_names with
      | some n => if n = "" then none else some n
      | none => none
    match (match sname with
           | some n => look_up_operations n fl.columns
           | none => .ok "") with
    | .error e => (s, [], .error e)
    | .ok _ =>
      if phase = ALL then
        let fl2 : DataFrame := { fl with rows := sortByIdx fl.rows }
        ({ s with file_list := some fl2 }, [], .ok (some (projectDf fl2 sname)))
      else
        match s.partition_ids with
        | none => (s, [], .error (.valueError "No partition ids available."))
        | some pt =>
          let sel := (pt.filter (fun r => r.2 = phase)).map (fun r => r.1)
          if sel.isEmpty then
            (s, ["Empty subset for phase " ++ phase ++
                 ", returning None as file list. Please adjust splitting fractions."],
             .ok none)
          else
            let subset := mergeSelect fl sel
            (s, [], .ok (some (projectDf subset sname)))

/-- Diagnostic raised when the merged file list is absent or has no cells. -/
def emptyFileListMsg : String :=
  "empty filename lists, please check the csv files. (removing csv_file keyword if it is in the config file to automatically search folders and generate new csv files again). Please note in the matched file names, each subject id is created by removing all keywords listed filename_contains in the config."

/-- Diagnostic raised when the input section list is empty. -/
def nothingToLoadMsg : String :=
  "Nothing to load, please check input sections in the config."

/-- The method `grep_files_by_data_section(modality_name)`: looks the section
up in `data_param`, requires its `csv_file` attribute, optionally delegates to
the external file matcher (modelled from the spec:
`match_and_write_filenames_to_csv` from `niftynet.utilities.util_csv` is not
under `src/`; it is modelled as the oracle `matcher` whose two-column output
overwrites the csv cache), then reads the csv cache. -/
def grep_files_by_data_section (matcher : String → CsvRows) (fs : Fs)
    (data_param : List (String × SectionConfig)) (modality_name : String) :
    Fs × Except Err CsvRows :=
  match data_param.lookup modality_name with
  | none => (fs, .error (.valueError ("unknown section name " ++ modality_name)))
  | some cfg =>
    match cfg.csv_file with
    | none =>
      (fs, .error (.attributeError
        "Missing csv_file field in the config file, unknown configuration format."))
    | some csv_file =>
      let fs2 :=
        match cfg.path_to_search with
        | some p => if p = "" then fs
                    else fsWrite fs csv_file (.ok (matcher modality_name))
        | none => fs
      match fs2 csv_file with
      | none => (fs2, .error (.ioError ("csv file " ++ csv_file ++ " not found.")))
      | some (.error e) => (fs2, .error (.parseError e))
      | some (.ok rows) => (fs2, .ok rows)

/-- The loop body of `load_data_sections_by_subject`: iterates over the
section names, greps each section table, keeps the first table and inner-joins
each subsequent one on `subject_id`, warning when the row count shrinks. -/
def load_sections_loop (matcher : String → CsvRows)
    (data_param : List (String × SectionConfig)) (names : List String)
    (fs : Fs) (file_list : Option DataFrame) :
    Option DataFrame × Fs × List String × Option Err :=
  match names with
  | [] => (file_list, fs, [], none)
  | name :: rest =>
    match grep_files_by_data_section matcher fs data_param name with
    | (fs2, .error e) => (file_list, fs2, [], some e)
    | (fs2, .ok modality_rows) =>
      match file_list with
      | none =>
        load_sections_loop matcher data_param rest fs2
          (some (csvToTable name modality_rows))
      | some fl =>
        let n_rows := fl.nRows
        let merged := mergeOn fl name modality_rows
        let warns := if merged.nRows < n_rows
                     then ["rows not matched in section " ++ name] else []
        let r := load_sections_loop matcher data_param rest fs2 (some merged)
        (r.1, r.2.1, warns ++ r.2.2.1, r.2.2.2)

/-- The method `load_data_sections_by_subject`: fails on an empty section
list (`ValueError`), resets `self._file_list`, runs the merge loop, and fails
(`IOError`) when the final table is absent or has no cells. -/
def load_data_sections_by_subject (matcher : String → CsvRows) (fs : Fs)
    (s : Store) : Store × Fs × List String × Option Err :=
  if s.data_param.isEmpty then
    (s, fs, [], some (.valueError nothingToLoadMsg))
  else
    let s0 : Store := { s with file_list := none }
    let r := load_sections_loop matcher s0.data_param
      (s0.data_param.map (fun p => p.1)) fs none
    match r with
    | (fl, fs2, warns, some e) => ({ s0 with file_list := fl }, fs2, warns, some e)
    | (fl, fs2, warns, none) =>
      match fl with
      | none => (s0, fs2, warns, some (.ioError emptyFileListMsg))
      | some t =>
        if t.size = 0 then
          ({ s0 with file_list := some t }, fs2, warns, some (.ioError emptyFileListMsg))
        else
          ({ s0 with file_list := some t }, fs2, warns, none)

/-- The fraction clamp `max(min(1.0, float(x)), 0.0)`. -/
def clampFrac (x : ℚ) : ℚ := max (min 1 x) 0

/-- The split sizes `(n_train, n_valid, n_infer)` computed in
`randomly_split_dataset`: `n_valid = ceil(n_total * valid_fraction)`,
`n_infer = ceil(n_total * infer_fraction)` on the clamped fractions, and
`n_train = n_total - n_infer - n_valid` (an integer, possibly negative). -/
def splitCounts (n_total : Nat) (valid_fraction infer_fraction : ℚ) :
    Int × Int × Int :=
  let n_valid : Int := ⌈(n_total : ℚ) * clampFrac valid_fraction⌉
  let n_infer : Int := ⌈(n_total : ℚ) * clampFrac infer_fraction⌉
  ((n_total : Int) - n_infer - n_valid, n_valid, n_infer)

/-- The concatenation `[TRAIN]*n_train + [VALID]*n_valid + [INFER]*n_infer`
(in Python a negative repeat count yields the empty list). -/
def rawPhases (n_total : Nat) (valid_fraction infer_fraction : ℚ) :
    List String :=
  List.replicate (splitCounts n_total valid_fraction infer_fraction).1.toNat TRAIN ++
  List.replicate (splitCounts n_total valid_fraction infer_fraction).2.1.toNat VALID ++
  List.replicate (splitCounts n_total valid_fraction infer_fraction).2.2.toNat INFER

/-- The phase label list after the truncation
`if len(phases) > n_total: phases = phases[:n_total]`. -/
def truncPhases (n_total : Nat) (valid_fraction infer_fraction : ℚ) :
    List String :=
  if (rawPhases n_total valid_fraction infer_fraction).length > n_total then
    (rawPhases n_total valid_fraction infer_fraction).take n_total
  else rawPhases n_total valid_fraction infer_fraction

/-- The unpacking and float conversion
`valid_fraction, infer_fraction = self.ratios` followed by `float(...)`:
`None` is a `TypeError`, a wrong arity or a non-numeric entry a `ValueError`
(both caught and re-raised as fatal in the source). -/
def unpack_ratios : Option (List RatioVal) → Except Err (ℚ × ℚ)
  | none => .error (.typeError "cannot unpack non-iterable NoneType object")
  | some [RatioVal.num a, RatioVal.num b] => .ok (a, b)
  | some [_, _] => .error (.valueError "could not convert string to float")
  | some _ => .error (.valueError "wrong number of values to unpack")

/-- Python truthiness of the `ratios` attribute. -/
def ratiosTruthy : Option (List RatioVal) → Bool
  | none => false
  | some l => !l.isEmpty

/-- The tail of `randomly_split_dataset`: if the split file exists, try to
read it into `self._partition_ids`; a parse failure is only a warning and
leaves the partition table unchanged. -/
def readSplitFile (s : Store) (fs : Fs) (warns : List String) :
    Store × Fs × List String × Option Err :=
  match fs s.data_split_file with
  | none => (s, fs, warns, none)
  | some (.ok rows) => ({ s with partition_ids := some rows }, fs, warns, none)
  | some (.error e) => (s, fs, warns ++ [e], none)

/-- The method `randomly_split_dataset(overwrite)`.  With `overwrite` it
unpacks and clamps the ratios, builds and truncates the phase label list,
shuffles it, and persists `zip(subject_ids, phases)` to the split file
(`write_csv`, modelled from the spec: `niftynet.utilities.util_csv` is not
under `src/`; it overwrites the file with the given two-column rows); then in
both modes it tries to read the split file back into `self._partition_ids`. -/
def randomly_split_dataset (shuffle : List String → List String) (fs : Fs)
    (s : Store) (overwrite : Bool) : Store × Fs × List String × Option Err :=
  if overwrite then
    match unpack_ratios s.ratios with
    | .error e => (s, fs, [], some e)
    | .ok fr =>
      match number_of_subjects s ALL with
      | .error e => (s, fs, [], some e)
      | .ok n_total =>
        let phases := shuffle (truncPhases n_total fr.1 fr.2)
        match s.file_list with
        | none => (s, fs, [], some (.typeError "NoneType object is not subscriptable"))
        | some fl =>
          let fs2 := fsWrite fs s.data_split_file (.ok (fl.subjectIds.zip phases))
          readSplitFile s fs2 []
  else
    let warns := if ratiosTruthy s.ratios then
        ["Loading from existing partitioning file, ignoring partitioning ratios."]
      else []
    readSplitFile s fs warns

/-- The method `initialise(data_param, new_partition, data_split_file,
ratios)`: stores the parameters, resets both tables, merges the sections, and
creates or loads the partition table. -/
def initialise (matcher : String → CsvRows) (shuffle : List String → List String)
    (fs : Fs) (s : Store) (data_param : List (String × SectionConfig))
    (new_partition : Bool) (data_split_file : String)
    (ratios : Option (List RatioVal)) : Store × Fs × List String × Option Err :=
  let s1 : Store := { s with data_param := data_param,
                             data_split_file := data_split_file,
                             ratios := ratios,
                             file_list := none,
                             partition_ids := none }
  match load_data_sections_by_subject matcher fs s1 with
  | (s2, fs2, warns, some e) => (s2, fs2, warns, some e)
  | (s2, fs2, warns, none) =>
    let s3 : Store := { s2 with new_partition := new_partition }
    let r := randomly_split_dataset shuffle fs2 s3 new_partition
    (r.1, r.2.1, warns ++ r.2.2.1, r.2.2.2)

/-! ### Helper lemmas for the partition splitter -/

theorem clampFrac_nonneg (x : ℚ) : 0 ≤ clampFrac x := le_max_right _ 0

theorem clampFrac_one : clampFrac 1 = 1 := by
  unfold clampFrac
  rw [min_self]
  exact max_eq_left zero_le_one

theorem splitCounts_valid_nonneg (n : Nat) (v i : ℚ) :
    0 ≤ (splitCounts n v i).2.1 :=
  Int.ceil_nonneg (mul_nonneg (Nat.cast_nonneg n) (clampFrac_nonneg v))

theorem splitCounts_infer_nonneg (n : Nat) (v i : ℚ) :
    0 ≤ (splitCounts n v i).2.2 :=
  Int.ceil_nonneg (mul_nonneg (Nat.cast_nonneg n) (clampFrac_nonneg i))

theorem splitCounts_train_eq (n : Nat) (v i : ℚ) :
    (splitCounts n v i).1 =
      (n : Int) - (splitCounts n v i).2.2 - (splitCounts n v i).2.1 := rfl

theorem splitCounts_one_one (n : Nat) :
    splitCounts n 1 1 = ((n : Int) - n - n, (n : Int), (n : Int)) := by
  simp only [splitCounts, clampFrac_one, mul_one, Int.ceil_natCast]

theorem rawPhases_length (n : Nat) (v i : ℚ) :
    (rawPhases n v i).length =
      (splitCounts n v i).1.toNat + (splitCounts n v i).2.1.toNat +
        (splitCounts n v i).2.2.toNat := by
  simp [rawPhases]
  omega

theorem truncPhases_length (n : Nat) (v i : ℚ) :
    (truncPhases n v i).length = n := by
  have h1 := splitCounts_valid_nonneg n v i
  have h2 := splitCounts_infer_nonneg n v i
  have h3 := splitCounts_train_eq n v i
  have h4 := rawPhases_length n v i
  unfold truncPhases
  split
  · simp only [List.length_take]
    omega
  · omega

theorem strLower_ALL : strLower ALL = ALL := by decide

theorem number_of_subjects_all_some {s : Store} {fl : DataFrame}
    (h : s.file_list = some fl) :
    number_of_subjects s ALL = .ok fl.nRows := by
  have hmem : ALL ∈ SUPPORTED_PHASES := by decide
  simp [number_of_subjects, h, look_up_operations, strLower_ALL, hmem]

/-! ### Shared concrete fixtures for the witnesses -/

/-- The identity shuffle (one possible outcome of `random.shuffle`). -/
def shufId : List String → List String := fun l => l

/-- An empty filesystem. -/
def fsEmpty : Fs := fun _ => none

/-- A matcher oracle that finds nothing. -/
def mtrEmpty : String → CsvRows := fun _ => []

/-- A two-subject file table, subject ids in non-alphabetical order. -/
def dfW : DataFrame := ⟨["T1"], [(0, "s2", ["p2"]), (1, "s1", ["p1"])]⟩

/-- A store holding `dfW` and the ratio pair (1, 1). -/
def storeC1 : Store :=
  ⟨some dfW, none, [], some [RatioVal.num 1, RatioVal.num 1], false, "split.csv"⟩

/-! ### Claim C1 -/

/-- C1: for every total subject count and every ratio pair, the phase-label
list built, shuffled and persisted by `randomly_split_dataset` with
`overwrite = True` has, after truncation, exactly `total_n` elements (here
`total_n` is the file-table row count), the persisted `(subject_id, phase)`
row list also has exactly `total_n` entries, the counts of train, validation
and inference labels are each nonnegative (even when the raw
`n_train = total_n - n_valid - n_infer` is negative), and `n_valid`,
`n_infer` are the ceilings of `total_n` times the respective clamped
fraction. -/
theorem randomly_split_counts_and_persist
    (shuffle : List String → List String) (hsh : ∀ l, (shuffle l).Perm l)
    (fs : Fs) (s : Store) (fl : DataFrame) (rv ri : ℚ)
    (hfl : s.file_list = some fl)
    (hr : s.ratios = some [RatioVal.num rv, RatioVal.num ri]) :
    (randomly_split_dataset shuffle fs s true).2.2.2 = none ∧
    (randomly_split_dataset shuffle fs s true).2.1 s.data_split_file =
      some (.ok (fl.subjectIds.zip (shuffle (truncPhases fl.nRows rv ri)))) ∧
    (fl.subjectIds.zip (shuffle (truncPhases fl.nRows rv ri))).length = fl.nRows ∧
    (truncPhases fl.nRows rv ri).length = fl.nRows ∧
    0 ≤ (shuffle (truncPhases fl.nRows rv ri)).count TRAIN ∧
    0 ≤ (shuffle (truncPhases fl.nRows rv ri)).count VALID ∧
    0 ≤ (shuffle (truncPhases fl.nRows rv ri)).count INFER ∧
    (splitCounts fl.nRows rv ri).2.1 = ⌈(fl.nRows : ℚ) * clampFrac rv⌉ ∧
    (splitCounts fl.nRows rv ri).2.2 = ⌈(fl.nRows : ℚ) * clampFrac ri⌉ := by
  have hlen : (shuffle (truncPhases fl.nRows rv ri)).length = fl.nRows := by
    rw [(hsh (truncPhases fl.nRows rv ri)).length_eq, truncPhases_length]
  have hids : fl.subjectIds.length = fl.nRows := by
    simp [DataFrame.subjectIds, DataFrame.nRows]
  refine ⟨?_, ?_, ?_, truncPhases_length _ _ _, Nat.zero_le _, Nat.zero_le _,
    Nat.zero_le _, rfl, rfl⟩
  · simp [randomly_split_dataset, hr, unpack_ratios,
      number_of_subjects_all_some hfl, hfl, readSplitFile, fsWrite]
  · simp [randomly_split_dataset, hr, unpack_ratios,
      number_of_subjects_all_some hfl, hfl, readSplitFile, fsWrite]
  · rw [List.length_zip, hlen, hids, min_self]

/-- Witness for C1 at a concrete store with two subjects and ratios (1, 1),
a case where the raw `n_train` is negative. -/
theorem randomly_split_counts_and_persist_witness :
    (∀ l : List String, (shufId l).Perm l) ∧
    storeC1.file_list = some dfW ∧
    storeC1.ratios = some [RatioVal.num 1, RatioVal.num 1] ∧
    ((randomly_split_dataset shufId fsEmpty storeC1 true).2.2.2 = none ∧
     (randomly_split_dataset shufId fsEmpty storeC1 true).2.1 storeC1.data_split_file =
       some (.ok (dfW.subjectIds.zip (shufId (truncPhases dfW.nRows 1 1)))) ∧
     (dfW.subjectIds.zip (shufId (truncPhases dfW.nRows 1 1))).length = dfW.nRows ∧
     (truncPhases dfW.nRows 1 1).length = dfW.nRows ∧
     0 ≤ (shufId (truncPhases dfW.nRows 1 1)).count TRAIN ∧
     0 ≤ (shufId (truncPhases dfW.nRows 1 1)).count VALID ∧
     0 ≤ (shufId (truncPhases dfW.nRows 1 1)).count INFER ∧
     (splitCounts dfW.nRows 1 1).2.1 = ⌈(dfW.nRows : ℚ) * clampFrac 1⌉ ∧
     (splitCounts dfW.nRows 1 1).2.2 = ⌈(dfW.nRows : ℚ) * clampFrac 1⌉) :=
  ⟨fun l => List.Perm.refl l, rfl, rfl,
   randomly_split_counts_and_persist shufId (fun l => List.Perm.refl l)
     fsEmpty storeC1 dfW 1 1 rfl rfl⟩

/-! ### Claim C7 -/

/-- C7: whenever the concatenated label list is longer than `total_n`,
the truncation keeps exactly the first `total_n` labels (trimming from the
tail, preserving order), so the trimmed labels come from the inference block
first and then from the validation block: with `e` the excess length, the
inference block loses `min e n_infer` labels and the validation block loses
the remaining `e - min e n_infer`. -/
theorem truncation_trims_tail (n : Nat) (v i : ℚ)
    (h : (rawPhases n v i).length > n) :
    truncPhases n v i = (rawPhases n v i).take n ∧
    truncPhases n v i ++ (rawPhases n v i).drop n = rawPhases n v i ∧
    (truncPhases n v i).count TRAIN = (splitCounts n v i).1.toNat ∧
    (truncPhases n v i).count INFER =
      (splitCounts n v i).2.2.toNat -
        min ((rawPhases n v i).length - n) (splitCounts n v i).2.2.toNat ∧
    (truncPhases n v i).count VALID =
      (splitCounts n v i).2.1.toNat -
        (((rawPhases n v i).length - n) -
          min ((rawPhases n v i).length - n) (splitCounts n v i).2.2.toNat) := by
  have h1 := splitCounts_valid_nonneg n v i
  have h2 := splitCounts_infer_nonneg n v i
  have h3 := splitCounts_train_eq n v i
  have h4 := rawPhases_length n v i
  have htr : (splitCounts n v i).1.toNat = 0 := by omega
  have htrunc : truncPhases n v i = (rawPhases n v i).take n := by
    unfold truncPhases
    rw [if_pos h]
  have hraw : rawPhases n v i =
      List.replicate (splitCounts n v i).2.1.toNat VALID ++
        List.replicate (splitCounts n v i).2.2.toNat INFER := by
    unfold rawPhases
    rw [htr]
    rfl
  set a := (splitCounts n v i).2.1.toNat with ha
  set b := (splitCounts n v i).2.2.toNat with hb
  have htake : (rawPhases n v i).take n =
      List.replicate (min n a) VALID ++ List.replicate (min (n - a) b) INFER := by
    rw [hraw, List.take_append_eq_append_take, List.take_replicate,
      List.take_replicate, List.length_replicate]
  have hlen : (rawPhases n v i).length = a + b := by omega
  have cne : ∀ (x y : String) (k : Nat), x ≠ y →
      List.count y (List.replicate k x) = 0 := by
    intro x y k hxy
    rw [List.count_replicate]
    simp [hxy]
  have ceq : ∀ (x : String) (k : Nat), List.count x (List.replicate k x) = k := by
    intro x k
    rw [List.count_replicate]
    simp
  refine ⟨htrunc, by rw [htrunc]; exact List.take_append_drop n _, ?_, ?_, ?_⟩
  · rw [htrunc, htake, htr, List.count_append, cne VALID TRAIN _ (by decide),
      cne INFER TRAIN _ (by decide)]
  · rw [htrunc, htake, List.count_append, cne VALID INFER _ (by decide),
      ceq INFER]
    omega
  · rw [htrunc, htake, List.count_append, ceq VALID,
      cne INFER VALID _ (by decide)]
    omega

/-- Witness for C7 at `total_n = 1` with ratios (1, 1): the raw list is
`[validation, inference]` of length 2 > 1. -/
theorem truncation_trims_tail_witness :
    (rawPhases 1 1 1).length > 1 ∧
    (truncPhases 1 1 1 = (rawPhases 1 1 1).take 1 ∧
     truncPhases 1 1 1 ++ (rawPhases 1 1 1).drop 1 = rawPhases 1 1 1 ∧
     (truncPhases 1 1 1).count TRAIN = (splitCounts 1 1 1).1.toNat ∧
     (truncPhases 1 1 1).count INFER =
       (splitCounts 1 1 1).2.2.toNat -
         min ((rawPhases 1 1 1).length - 1) (splitCounts 1 1 1).2.2.toNat ∧
     (truncPhases 1 1 1).count VALID =
       (splitCounts 1 1 1).2.1.toNat -
         (((rawPhases 1 1 1).length - 1) -
           min ((rawPhases 1 1 1).length - 1) (splitCounts 1 1 1).2.2.toNat)) := by
  have hlen : (rawPhases 1 1 1).length = 2 := by
    rw [rawPhases_length, splitCounts_one_one]
    decide
  have h : (rawPhases 1 1 1).length > 1 := by omega
  exact ⟨h, truncation_trims_tail 1 1 1 h⟩

/-! ### Lemmas about `sort_index` -/

theorem insertByIdx_perm (r : Nat × String × List String)
    (l : List (Nat × String × List String)) :
    (insertByIdx r l).Perm (r :: l) := by
  induction l with
  | nil => exact List.Perm.refl _
  | cons x xs ih =>
    unfold insertByIdx
    split
    · exact List.Perm.refl _
    · exact (List.Perm.cons x ih).trans (List.Perm.swap r x xs)

theorem sortByIdx_perm (l : List (Nat × String × List String)) :
    (sortByIdx l).Perm l := by
  induction l with
  | nil => exact List.Perm.refl _
  | cons x xs ih =>
    show (insertByIdx x (sortByIdx xs)).Perm (x :: xs)
    exact (insertByIdx_perm x _).trans (ih.cons x)

theorem sortByIdx_of_sorted (l : List (Nat × String × List String))
    (h : l.Pairwise (fun a b => a.1 < b.1)) : sortByIdx l = l := by
  induction l with
  | nil => rfl
  | cons x xs ih =>
    have hx := (List.pairwise_cons.mp h).1
    have hxs := ih (List.pairwise_cons.mp h).2
    show insertByIdx x (sortByIdx xs) = x :: xs
    rw [hxs]
    cases xs with
    | nil => rfl
    | cons y ys =>
      unfold insertByIdx
      rw [if_pos (hx y (by simp))]

/-! ### Further shared concrete fixtures -/

/-- A two-subject file table whose subject ids are not in alphabetical
order (the csv listed "b" before "a"). -/
def dfBA : DataFrame := ⟨["T1"], [(0, "b", ["pb"]), (1, "a", ["pa"])]⟩

/-- A store with no tables at all. -/
def storeEmpty : Store := ⟨none, none, [], none, false, ""⟩

/-- A store with a file table but no partition table. -/
def storeNoPart : Store := ⟨some dfBA, none, [], none, false, "f.csv"⟩

/-- A store with both a file table and a partition table. -/
def storePart : Store :=
  ⟨some dfBA, some [("s1", "train")], [], none, false, "f.csv"⟩

/-- A store pointing at split file "split.csv", holding no partition table. -/
def storeParse : Store := ⟨some dfBA, none, [], none, false, "split.csv"⟩

/-- A second store pointing at "split.csv", with a different file table, a
prior partition table, truthy ratios and a different overwrite flag. -/
def storeSplitB : Store :=
  ⟨some dfW, some [("x", "y")], [], some [RatioVal.num 0, RatioVal.num 0],
   true, "split.csv"⟩

/-- A filesystem whose only file is an unparseable "split.csv". -/
def fsParse : Fs :=
  fun q => if q = "split.csv" then some (Except.error "ParserError") else none

/-- The subject-to-phase rows used in the split-file fixtures. -/
def rowsSplit : CsvRows := [("s1", "train"), ("s2", "inference")]

/-- A filesystem whose only file is a parseable "split.csv". -/
def fsSplitOk : Fs :=
  fun q => if q = "split.csv" then some (Except.ok rowsSplit) else none

/-! ### Claim C3 -/

/-- C3 (amended): `number_of_subjects` returns 0 whenever the file table is
absent, for every phase argument; but when the file table is present and the
partition table is absent, a supported non-`all` phase is NOT an error: the
method returns the full file-table row count (the `or self._partition_ids is
None` branch), exactly as for phase `all`. -/
theorem number_of_subjects_absent_tables (s t : Store) (p q : String)
    (fl : DataFrame) (hs : s.file_list = none)
    (ht : t.file_list = some fl) (htp : t.partition_ids = none)
    (hq : strLower q ∈ SUPPORTED_PHASES) :
    number_of_subjects s p = .ok 0 ∧
    number_of_subjects t q = .ok fl.nRows := by
  constructor
  · simp [number_of_subjects, hs]
  · simp [number_of_subjects, ht, htp, look_up_operations, hq]

/-- Counterexample to C3 as stated: with a present file table (2 rows) and no
partition table, `number_of_subjects` on phase `train` returns the count 2
instead of raising a fatal StateError. -/
theorem number_of_subjects_absent_partition_counterexample :
    number_of_subjects storeNoPart TRAIN = .ok 2 := by decide

/-- Witness for the amended C3 at concrete stores, exercising the
lower-casing of the phase argument. -/
theorem number_of_subjects_absent_tables_witness :
    storeEmpty.file_list = none ∧
    storeNoPart.file_list = some dfBA ∧
    storeNoPart.partition_ids = none ∧
    strLower "TRAIN" ∈ SUPPORTED_PHASES ∧
    (number_of_subjects storeEmpty "anything" = .ok 0 ∧
     number_of_subjects storeNoPart "TRAIN" = .ok dfBA.nRows) :=
  ⟨rfl, rfl, rfl, by decide,
   number_of_subjects_absent_tables storeEmpty storeNoPart "anything" "TRAIN"
     dfBA rfl rfl rfl (by decide)⟩

/-! ### Claim C4 -/

/-- C4 (amended): for every initialized store, `get_file_list("all")` returns
(with no warnings, and regardless of the partition table, which is left
unconstrained here) the file table with its rows sorted by the pandas integer
index — a permutation of the file table, hence exactly its subjects — and
when the index is already increasing (as for every table this module builds
with a fresh RangeIndex) the rows come back in their original order, NOT
sorted by subject id. -/
theorem get_file_list_all_returns_filetable (s : Store) (fl : DataFrame)
    (h : s.file_list = some fl) :
    (get_file_list s ALL none).2.2 =
      .ok (some { fl with rows := sortByIdx fl.rows }) ∧
    (get_file_list s ALL none).2.1 = [] ∧
    (sortByIdx fl.rows).Perm fl.rows ∧
    (DataFrame.mk fl.sections (sortByIdx fl.rows)).subjectIds.Perm
      fl.subjectIds ∧
    (fl.rows.Pairwise (fun a b => a.1 < b.1) →
      (get_file_list s ALL none).2.2 = .ok (some fl)) := by
  have h1 : (get_file_list s ALL none).2.2 =
      .ok (some { fl with rows := sortByIdx fl.rows }) := by
    simp [get_file_list, h, projectDf]
  refine ⟨h1, by simp [get_file_list, h], sortByIdx_perm fl.rows,
    List.Perm.map _ (sortByIdx_perm fl.rows), ?_⟩
  intro hp
  rw [h1, sortByIdx_of_sorted fl.rows hp]

/-- Counterexample to C4 as stated: a file table whose csv listed subject
"b" before "a" is returned by `get_file_list("all")` in that original order
(`sort_index()` sorts by the integer index, a no-op here), which is not
sorted by subject id. -/
theorem get_file_list_all_not_sorted_counterexample :
    (get_file_list storeNoPart ALL none).2.2 = .ok (some dfBA) ∧
    dfBA.subjectIds = ["b", "a"] ∧
    ¬ List.Sorted (fun a b : String => a ≤ b) dfBA.subjectIds := by
  refine ⟨by decide, by decide, ?_⟩
  intro hs
  rw [show dfBA.subjectIds = ["b", "a"] by decide] at hs
  have hba := (List.sorted_cons.mp hs).1 "a" (by simp)
  rw [String.le_iff_toList_le] at hba
  exact absurd hba (by decide)

/-- Witness for the amended C4 at a concrete store. -/
theorem get_file_list_all_returns_filetable_witness :
    storeNoPart.file_list = some dfBA ∧
    ((get_file_list storeNoPart ALL none).2.2 =
       .ok (some { dfBA with rows := sortByIdx dfBA.rows }) ∧
     (get_file_list storeNoPart ALL none).2.1 = [] ∧
     (sortByIdx dfBA.rows).Perm dfBA.rows ∧
     (DataFrame.mk dfBA.sections (sortByIdx dfBA.rows)).subjectIds.Perm
       dfBA.subjectIds ∧
     (dfBA.rows.Pairwise (fun a b => a.1 < b.1) →
       (get_file_list storeNoPart ALL none).2.2 = .ok (some dfBA))) :=
  ⟨rfl, get_file_list_all_returns_filetable storeNoPart dfBA rfl⟩

/-! ### Claim C6 -/

/-- C6: with `overwrite = False` and a readable split file at the configured
path, `randomly_split_dataset` reads the file verbatim into the partition
table: two calls (here from two arbitrary stores, with arbitrary file tables
and prior partition tables) load identical partition contents, the
filesystem is untouched (no re-shuffle, nothing written), and no validation
against the file-table subject set takes place. -/
theorem split_file_loaded_verbatim (sh : List String → List String) (fs : Fs)
    (s1 s2 : Store) (p : String) (rows : CsvRows)
    (h1 : s1.data_split_file = p) (h2 : s2.data_split_file = p)
    (hfs : fs p = some (.ok rows)) :
    (randomly_split_dataset sh fs s1 false).1.partition_ids = some rows ∧
    (randomly_split_dataset sh fs s2 false).1.partition_ids = some rows ∧
    (randomly_split_dataset sh fs s1 false).1.partition_ids =
      (randomly_split_dataset sh fs s2 false).1.partition_ids ∧
    (randomly_split_dataset sh fs s1 false).2.1 = fs ∧
    (randomly_split_dataset sh fs s1 false).2.2.2 = none ∧
    (randomly_split_dataset sh fs s2 false).2.2.2 = none := by
  have g : ∀ t : Store, t.data_split_file = p →
      (randomly_split_dataset sh fs t false).1.partition_ids = some rows ∧
      (randomly_split_dataset sh fs t false).2.1 = fs ∧
      (randomly_split_dataset sh fs t false).2.2.2 = none := by
    intro t ht
    refine ⟨?_, ?_, ?_⟩ <;> simp [randomly_split_dataset, readSplitFile, ht, hfs]
  obtain ⟨a1, b1, c1⟩ := g s1 h1
  obtain ⟨a2, _, c2⟩ := g s2 h2
  exact ⟨a1, a2, a1.trans a2.symm, b1, c1, c2⟩

/-- Witness for C6 at two concrete stores with different file tables, prior
partition tables, ratios and overwrite flags. -/
theorem split_file_loaded_verbatim_witness :
    storeParse.data_split_file = "split.csv" ∧
    storeSplitB.data_split_file = "split.csv" ∧
    fsSplitOk "split.csv" = some (.ok rowsSplit) ∧
    ((randomly_split_dataset shufId fsSplitOk storeParse false).1.partition_ids =
       some rowsSplit ∧
     (randomly_split_dataset shufId fsSplitOk storeSplitB false).1.partition_ids =
       some rowsSplit ∧
     (randomly_split_dataset shufId fsSplitOk storeParse false).1.partition_ids =
       (randomly_split_dataset shufId fsSplitOk storeSplitB false).1.partition_ids ∧
     (randomly_split_dataset shufId fsSplitOk storeParse false).2.1 = fsSplitOk ∧
     (randomly_split_dataset shufId fsSplitOk storeParse false).2.2.2 = none ∧
     (randomly_split_dataset shufId fsSplitOk storeSplitB false).2.2.2 = none) :=
  ⟨rfl, rfl, rfl,
   split_file_loaded_verbatim shufId fsSplitOk storeParse storeSplitB
     "split.csv" rowsSplit rfl rfl rfl⟩

/-! ### Claim C9 -/

/-- C9 (amended): when the split file exists but cannot be parsed, the load
path of `randomly_split_dataset` (`overwrite = False`) does NOT fail: it
emits the parse failure as a warning, leaves the store (in particular the
partition table) unchanged, writes nothing, and returns no error. -/
theorem split_file_parse_failure_warns (sh : List String → List String)
    (fs : Fs) (s : Store) (e : String)
    (hfs : fs s.data_split_file = some (.error e)) :
    randomly_split_dataset sh fs s false =
      (s, fs,
       (if ratiosTruthy s.ratios then
          ["Loading from existing partitioning file, ignoring partitioning ratios."]
        else []) ++ [e], none) := by
  simp [randomly_split_dataset, readSplitFile, hfs]

/-- Counterexample to C9 as stated: with an unparseable "split.csv" required
on the load path, the call returns no error, records only a warning, and
continues with an absent partition table. -/
theorem split_parse_failure_not_fatal_counterexample :
    (randomly_split_dataset shufId fsParse storeParse false).2.2.2 = none ∧
    (randomly_split_dataset shufId fsParse storeParse false).1.partition_ids =
      none ∧
    (randomly_split_dataset shufId fsParse storeParse false).2.2.1 =
      ["ParserError"] :=
  ⟨by decide, by decide, by decide⟩

/-- Witness for the amended C9 at a concrete store and filesystem. -/
theorem split_file_parse_failure_warns_witness :
    fsParse storeParse.data_split_file = some (.error "ParserError") ∧
    randomly_split_dataset shufId fsParse storeParse false =
      (storeParse, fsParse,
       (if ratiosTruthy storeParse.ratios then
          ["Loading from existing partitioning file, ignoring partitioning ratios."]
        else []) ++ ["ParserError"], none) :=
  ⟨rfl, split_file_parse_failure_warns shufId fsParse storeParse "ParserError" rfl⟩

/-! ### Claim C10 -/

/-- C10: with both tables present, `get_file_list` does not validate a
non-`all` phase string: any phase (such as a typo, not lower-cased and not in
the supported set) that matches no partition row yields the no-data result
`None` with a warning rather than an error — while `number_of_subjects`
rejects the same string with a ValueError. -/
theorem get_file_list_unknown_phase (s : Store) (fl : DataFrame)
    (pt : List (String × String)) (p : String)
    (hfl : s.file_list = some fl) (hpt : s.partition_ids = some pt)
    (hp : strLower p ∉ SUPPORTED_PHASES)
    (hmatch : pt.filter (fun r => r.2 = p) = []) :
    (get_file_list s p none).2.2 = .ok none ∧
    (get_file_list s p none).2.1 =
      ["Empty subset for phase " ++ p ++
       ", returning None as file list. Please adjust splitting fractions."] ∧
    number_of_subjects s p =
      .error (.valueError ("unsupported option " ++ strLower p)) := by
  have hne : p ≠ ALL := by
    intro he
    subst he
    exact hp (by decide)
  refine ⟨?_, ?_, ?_⟩
  · simp [get_file_list, hfl, hne, hpt, hmatch]
  · simp [get_file_list, hfl, hne, hpt, hmatch]
  · simp [number_of_subjects, hfl, look_up_operations, hp]

/-- Witness for C10 at a concrete store with the typo phase "trian". -/
theorem get_file_list_unknown_phase_witness :
    storePart.file_list = some dfBA ∧
    storePart.partition_ids = some [("s1", "train")] ∧
    strLower "trian" ∉ SUPPORTED_PHASES ∧
    [("s1", "train")].filter (fun r => r.2 = "trian") = [] ∧
    ((get_file_list storePart "trian" none).2.2 = .ok none ∧
     (get_file_list storePart "trian" none).2.1 =
       ["Empty subset for phase " ++ "trian" ++
        ", returning None as file list. Please adjust splitting fractions."] ∧
     number_of_subjects storePart "trian" =
       .error (.valueError ("unsupported option " ++ strLower "trian"))) :=
  ⟨rfl, rfl, by decide, by decide,
   get_file_list_unknown_phase storePart dfBA [("s1", "train")] "trian"
     rfl rfl (by decide) (by decide)⟩



theorem filter_key_length (t : CsvRows) (i : String)
    (nd : (t.map Prod.fst).Nodup) :
    (t.filter (fun s => s.1 = i)).length =
      if i ∈ t.map Prod.fst then 1 else 0 := by
  induction t with
  | nil => simp
  | cons hd tl ih =>
    simp only [List.map_cons, List.nodup_cons] at nd
    by_cases h : hd.1 = i
    · subst h
      rw [List.filter_cons_of_pos (by simp)]
      have hz : (tl.filter (fun s => s.1 = hd.1)).length = 0 := by
        rw [List.length_eq_zero, List.filter_eq_nil_iff]
        intro a ha
        simp only [decide_eq_true_eq]
        intro hh
        exact nd.1 (hh ▸ List.mem_map_of_mem Prod.fst ha)
      simp [hz]
    · rw [List.filter_cons_of_neg (by simp [h])]
      rw [ih nd.2]
      have hiff : (i ∈ hd.1 :: tl.map Prod.fst) ↔ i ∈ tl.map Prod.fst := by
        simp [Ne.symm h]
      rw [List.map_cons]
      exact (if_congr hiff rfl rfl).symm

/-- Number of subject ids the left table shares with the right table. -/
def commonIds (ids : List String) (t2 : CsvRows) : Nat :=
  (ids.filter (fun i => i ∈ t2.map Prod.fst)).length

theorem flatMap_merge_length (rs : List (String × List String)) (t : CsvRows)
    (nd : (t.map Prod.fst).Nodup) :
    (rs.flatMap (fun r => (t.filter (fun s => s.1 = r.1)).map
        (fun s => (r.1, r.2 ++ [s.2])))).length =
      commonIds (rs.map Prod.fst) t := by
  induction rs with
  | nil => simp [commonIds]
  | cons hd tl ih =>
    simp only [List.flatMap_cons, List.length_append, List.length_map, ih]
    rw [filter_key_length t hd.1 nd]
    unfold commonIds
    by_cases h : hd.1 ∈ t.map Prod.fst
    · simp [h, List.filter_cons]
      omega
    · simp [h, List.filter_cons]

theorem mergeOn_nRows (df : DataFrame) (name : String) (t : CsvRows)
    (nd : (t.map Prod.fst).Nodup) :
    (mergeOn df name t).nRows = commonIds df.subjectIds t := by
  unfold mergeOn DataFrame.nRows
  simp only [List.enum_length]
  rw [flatMap_merge_length _ t nd]
  congr 1
  unfold DataFrame.subjectIds
  rw [List.map_map]
  rfl

theorem csvToTable_ids (n : String) (t : CsvRows) :
    (csvToTable n t).subjectIds = t.map Prod.fst := by
  unfold csvToTable DataFrame.subjectIds
  simp only []
  have : (fun r : Nat × String × List String => r.2.1) =
      (Prod.fst ∘ Prod.snd) := rfl
  rw [this, ← List.map_map, List.enum_map_snd, List.map_map]
  rfl

theorem csvToTable_nRows (n : String) (t : CsvRows) :
    (csvToTable n t).nRows = t.length := by
  simp [csvToTable, DataFrame.nRows]



/-- The two-section configuration used to state the merge claim. -/
def dpAB : List (String × SectionConfig) :=
  [("A", ⟨some "a.csv", none⟩), ("B", ⟨some "b.csv", none⟩)]

/-- A filesystem holding the two section csv caches. -/
def fsAB (t1 t2 : CsvRows) : Fs :=
  fun q => if q = "a.csv" then some (Except.ok t1)
           else if q = "b.csv" then some (Except.ok t2) else none

/-- An uninitialized store configured with the two sections. -/
def storeAB : Store := ⟨none, none, dpAB, none, false, "split.csv"⟩

theorem merger_inner_join_counts (m : String → CsvRows) (t1 t2 : CsvRows)
    (nd1 : (t1.map Prod.fst).Nodup) (nd2 : (t2.map Prod.fst).Nodup)
    (hk : 0 < commonIds (t1.map Prod.fst) t2) :
    (load_data_sections_by_subject m (fsAB t1 t2) storeAB).2.2.2 = none ∧
    (load_data_sections_by_subject m (fsAB t1 t2) storeAB).1.file_list =
      some (mergeOn (csvToTable "A" t1) "B" t2) ∧
    (mergeOn (csvToTable "A" t1) "B" t2).nRows =
      commonIds (t1.map Prod.fst) t2 ∧
    ((load_data_sections_by_subject m (fsAB t1 t2) storeAB).2.2.1 ≠ [] ↔
      commonIds (t1.map Prod.fst) t2 < t1.length) ∧
    (load_data_sections_by_subject m (fsAB t1 t2) storeAB).2.2.1 =
      (if commonIds (t1.map Prod.fst) t2 < t1.length
       then ["rows not matched in section B"] else []) := by
  have hrows : (mergeOn (csvToTable "A" t1) "B" t2).nRows =
      commonIds (t1.map Prod.fst) t2 := by
    rw [mergeOn_nRows _ _ _ nd2, csvToTable_ids]
  have hsz : (mergeOn (csvToTable "A" t1) "B" t2).size ≠ 0 := by
    have hc : (mergeOn (csvToTable "A" t1) "B" t2).columns.length = 3 := rfl
    have : (mergeOn (csvToTable "A" t1) "B" t2).size =
        (mergeOn (csvToTable "A" t1) "B" t2).nRows *
          (mergeOn (csvToTable "A" t1) "B" t2).columns.length := rfl
    rw [this, hc, hrows]
    omega
  have hloop : load_sections_loop m
      [("A", ⟨some "a.csv", none⟩), ("B", ⟨some "b.csv", none⟩)] ["A", "B"]
      (fsAB t1 t2) none =
      (some (mergeOn (csvToTable "A" t1) "B" t2), fsAB t1 t2,
       (if (mergeOn (csvToTable "A" t1) "B" t2).nRows <
           (csvToTable "A" t1).nRows
        then ["rows not matched in section B"] else []), none) := by
    simp [load_sections_loop, grep_files_by_data_section, fsAB, List.lookup]
  have hwarn : (if (mergeOn (csvToTable "A" t1) "B" t2).nRows <
      (csvToTable "A" t1).nRows
      then ["rows not matched in section B"] else []) =
      (if commonIds (t1.map Prod.fst) t2 < t1.length
       then ["rows not matched in section B"] else []) := by
    rw [hrows, csvToTable_nRows]
  have hload : load_data_sections_by_subject m (fsAB t1 t2) storeAB =
      ({ storeAB with file_list := some (mergeOn (csvToTable "A" t1) "B" t2) },
       fsAB t1 t2,
       (if commonIds (t1.map Prod.fst) t2 < t1.length
        then ["rows not matched in section B"] else []), none) := by
    rw [← hwarn]
    simp [load_data_sections_by_subject, storeAB, dpAB, hloop, hsz]
  refine ⟨?_, ?_, hrows, ?_, ?_⟩
  · rw [hload]
  · rw [hload]
  · rw [hload]
    by_cases hc : commonIds (t1.map Prod.fst) t2 < t1.length
    · simp [hc]
    · simp [hc]
  · rw [hload]


/-- The section table fixtures of the unmatched-subjects scenario. -/
def t1W : CsvRows := [("s1", "p1"), ("s2", "p2"), ("s3", "p3")]

/-- The second section lists a different subject set. -/
def t2W : CsvRows := [("s2", "q2"), ("s3", "q3"), ("s4", "q4")]

/-- Witness for C5: sections listing subjects (s1,s2,s3) and (s2,s3,s4)
share 2 ids, the merge keeps 2 rows, and the shrinkage warning fires. -/
theorem merger_inner_join_counts_witness :
    (t1W.map Prod.fst).Nodup ∧ (t2W.map Prod.fst).Nodup ∧
    0 < commonIds (t1W.map Prod.fst) t2W ∧
    ((load_data_sections_by_subject mtrEmpty (fsAB t1W t2W) storeAB).2.2.2 =
       none ∧
     (load_data_sections_by_subject mtrEmpty (fsAB t1W t2W) storeAB).1.file_list =
       some (mergeOn (csvToTable "A" t1W) "B" t2W) ∧
     (mergeOn (csvToTable "A" t1W) "B" t2W).nRows =
       commonIds (t1W.map Prod.fst) t2W ∧
     ((load_data_sections_by_subject mtrEmpty (fsAB t1W t2W) storeAB).2.2.1 ≠
         [] ↔ commonIds (t1W.map Prod.fst) t2W < t1W.length) ∧
     (load_data_sections_by_subject mtrEmpty (fsAB t1W t2W) storeAB).2.2.1 =
       (if commonIds (t1W.map Prod.fst) t2W < t1W.length
        then ["rows not matched in section B"] else [])) :=
  ⟨by decide, by decide, by decide,
   merger_inner_join_counts mtrEmpty t1W t2W (by decide) (by decide) (by decide)⟩

/-- A section whose csv cache is present and parseable in `fs`, with no
search specification (so the external matcher is not invoked). -/
def sectionLoads (fs : Fs) (cfg : SectionConfig) : Prop :=
  cfg.path_to_search = none ∧
  ∃ c rows, cfg.csv_file = some c ∧ fs c = some (Except.ok rows)

theorem lookup_mem {dp : List (String × SectionConfig)} {name : String}
    {cfg : SectionConfig} (h : dp.lookup name = some cfg) :
    (name, cfg) ∈ dp := by
  induction dp with
  | nil => simp [List.lookup] at h
  | cons hd tl ih =>
    rw [List.lookup] at h
    cases he : (name == hd.1) with
    | true =>
      rw [he] at h
      have h2 : hd.2 = cfg := by simpa using h
      have hn : name = hd.1 := by simpa using he
      rw [hn, ← h2]
      exact List.mem_cons_self _ _
    | false =>
      rw [he] at h
      exact List.mem_cons_of_mem hd (ih h)

theorem lookup_of_mem_keys {dp : List (String × SectionConfig)} {name : String}
    (h : name ∈ dp.map Prod.fst) : ∃ cfg, dp.lookup name = some cfg := by
  induction dp with
  | nil => simp at h
  | cons hd tl ih =>
    rw [List.lookup]
    cases he : (name == hd.1) with
    | true => exact ⟨hd.2, rfl⟩
    | false =>
      show ∃ cfg, List.lookup name tl = some cfg
      apply ih
      rcases List.mem_cons.mp h with h1 | h1
      · rw [h1] at he
        simp at he
      · exact h1

theorem grep_clean (m : String → CsvRows) (fs : Fs)
    (dp : List (String × SectionConfig)) (name : String)
    (H : ∀ nc ∈ dp, sectionLoads fs nc.2) (hn : name ∈ dp.map Prod.fst) :
    ∃ rows, grep_files_by_data_section m fs dp name = (fs, .ok rows) := by
  obtain ⟨cfg, hc⟩ := lookup_of_mem_keys hn
  obtain ⟨hp, c, rows, hcf, hfsc⟩ := H _ (lookup_mem hc)
  have hp2 : cfg.path_to_search = none := hp
  have hcf2 : cfg.csv_file = some c := hcf
  refine ⟨rows, ?_⟩
  simp [grep_files_by_data_section, hc, hcf2, hp2, hfsc]

theorem loop_clean (m : String → CsvRows) (dp : List (String × SectionConfig))
    (fs : Fs) (H : ∀ nc ∈ dp, sectionLoads fs nc.2) :
    ∀ (names : List String) (flOpt : Option DataFrame),
      (∀ n ∈ names, n ∈ dp.map Prod.fst) →
      ∃ flOut warns, load_sections_loop m dp names fs flOpt =
          (flOut, fs, warns, none) ∧
        (flOpt.isSome → flOut.isSome) ∧ (names ≠ [] → flOut.isSome) := by
  intro names
  induction names with
  | nil =>
    intro flOpt _
    exact ⟨flOpt, [], rfl, fun h => h, fun h => absurd rfl h⟩
  | cons hd tl ih =>
    intro flOpt hmem
    obtain ⟨rows, hg⟩ := grep_clean m fs dp hd H (hmem hd (by simp))
    have hmem' : ∀ n ∈ tl, n ∈ dp.map Prod.fst :=
      fun n hn => hmem n (List.mem_cons_of_mem hd hn)
    cases flOpt with
    | none =>
      obtain ⟨flOut, warns, heq, h1, _⟩ :=
        ih (some (csvToTable hd rows)) hmem'
      refine ⟨flOut, warns, ?_, fun _ => h1 (by simp), fun _ => h1 (by simp)⟩
      rw [load_sections_loop, hg]
      exact heq
    | some fl =>
      obtain ⟨flOut, warns, heq, h1, _⟩ :=
        ih (some (mergeOn fl hd rows)) hmem'
      refine ⟨flOut,
        (if (mergeOn fl hd rows).nRows < fl.nRows
         then ["rows not matched in section " ++ hd] else []) ++ warns,
        ?_, fun _ => h1 (by simp), fun _ => h1 (by simp)⟩
      rw [load_sections_loop, hg]
      simp only [heq]

/-- C8 (amended): when every configured section has a loadable csv cache, the
merge step fails in exactly two cases — an empty section list, which is a
fatal ValueError (not an IOError), and a zero-cell final merged table, which
is a fatal IOError — each with its diagnostic message; otherwise it
succeeds. -/
theorem merger_fails_two_cases (m : String → CsvRows) (fs : Fs) (s : Store)
    (H : ∀ nc ∈ s.data_param, sectionLoads fs nc.2) :
    (s.data_param = [] →
      load_data_sections_by_subject m fs s =
        (s, fs, [], some (.valueError nothingToLoadMsg))) ∧
    (s.data_param ≠ [] →
      ∃ fl, (load_data_sections_by_subject m fs s).1.file_list = some fl ∧
        ((fl.size = 0 ∧
          (load_data_sections_by_subject m fs s).2.2.2 =
            some (.ioError emptyFileListMsg)) ∨
         (fl.size ≠ 0 ∧
          (load_data_sections_by_subject m fs s).2.2.2 = none))) := by
  constructor
  · intro he
    simp [load_data_sections_by_subject, he]
  · intro hne
    have hnames : ∀ n ∈ s.data_param.map (fun p => p.1),
        n ∈ s.data_param.map Prod.fst := by
      intro n hn
      exact hn
    obtain ⟨flOut, warns, heq, _, h2⟩ :=
      loop_clean m s.data_param fs H (s.data_param.map (fun p => p.1)) none hnames
    have hnn : s.data_param.map (fun p => p.1) ≠ [] := by
      intro hx
      exact hne (List.map_eq_nil_iff.mp hx)
    obtain ⟨t, ht⟩ := Option.isSome_iff_exists.mp (h2 hnn)
    have hie : s.data_param.isEmpty = false := by
      cases hdp : s.data_param with
      | nil => exact absurd hdp hne
      | cons a b => rfl
    rw [ht] at heq
    refine ⟨t, ?_⟩
    by_cases hz : t.size = 0
    · refine ⟨?_, Or.inl ⟨hz, ?_⟩⟩ <;>
        simp [load_data_sections_by_subject, hie, heq, hz]
    · refine ⟨?_, Or.inr ⟨hz, ?_⟩⟩ <;>
        simp [load_data_sections_by_subject, hie, heq, hz]


/-- Counterexample to C8 as stated: the empty-section-list failure is a
ValueError, not an IOError-kind error. -/
theorem merger_empty_sections_not_ioerror_counterexample :
    (load_data_sections_by_subject mtrEmpty fsEmpty storeEmpty).2.2.2 =
      some (.valueError nothingToLoadMsg) ∧
    Err.ioKind (.valueError nothingToLoadMsg) = false :=
  ⟨by decide, rfl⟩

/-- A one-section configuration whose csv cache loads cleanly. -/
def dpW1 : List (String × SectionConfig) := [("A", ⟨some "a.csv", none⟩)]

/-- The filesystem holding that single csv cache. -/
def fsW1 : Fs :=
  fun q => if q = "a.csv" then some (Except.ok [("s1", "p1")]) else none

/-- An uninitialized store configured with the single section. -/
def storeW1 : Store := ⟨none, none, dpW1, none, false, "split.csv"⟩

/-- Witness for the amended C8 at a concrete one-section configuration. -/
theorem merger_fails_two_cases_witness :
    (∀ nc ∈ storeW1.data_param, sectionLoads fsW1 nc.2) ∧
    ((storeW1.data_param = [] →
       load_data_sections_by_subject mtrEmpty fsW1 storeW1 =
         (storeW1, fsW1, [], some (.valueError nothingToLoadMsg))) ∧
     (storeW1.data_param ≠ [] →
       ∃ fl, (load_data_sections_by_subject mtrEmpty fsW1 storeW1).1.file_list =
           some fl ∧
         ((fl.size = 0 ∧
           (load_data_sections_by_subject mtrEmpty fsW1 storeW1).2.2.2 =
             some (.ioError emptyFileListMsg)) ∨
          (fl.size ≠ 0 ∧
           (load_data_sections_by_subject mtrEmpty fsW1 storeW1).2.2.2 =
             none)))) := by
  have H : ∀ nc ∈ storeW1.data_param, sectionLoads fsW1 nc.2 := by
    intro nc h
    simp only [storeW1, dpW1, List.mem_singleton] at h
    subst h
    exact ⟨rfl, "a.csv", [("s1", "p1")], rfl, rfl⟩
  exact ⟨H, merger_fails_two_cases mtrEmpty fsW1 storeW1 H⟩


theorem readSplitFile_err (s : Store) (fs : Fs) (w : List String) :
    (readSplitFile s fs w).2.2.2 = none := by
  unfold readSplitFile
  cases h : fs s.data_split_file with
  | none => rfl
  | some c => cases c <;> rfl

theorem randomly_split_pids_or_ok (sh : List String → List String) (fs : Fs)
    (s : Store) (ow : Bool) :
    (randomly_split_dataset sh fs s ow).1.partition_ids = s.partition_ids ∨
    (randomly_split_dataset sh fs s ow).2.2.2 = none := by
  unfold randomly_split_dataset
  split
  · split
    · left; rfl
    · split
      · left; rfl
      · split
        · left; rfl
        · right; exact readSplitFile_err _ _ _
  · right; exact readSplitFile_err _ _ _

theorem load_store_shape (m : String → CsvRows) (fs : Fs) (s : Store) :
    (load_data_sections_by_subject m fs s).1 =
      { s with file_list := (load_data_sections_by_subject m fs s).1.file_list } := by
  unfold load_data_sections_by_subject
  split
  · rfl
  · dsimp only
    split
    · rfl
    · split
      · rfl
      · split <;> rfl

theorem load_components_eq (m : String → CsvRows) (fs : Fs) (s t : Store)
    (h : s.data_param = t.data_param) (hf : s.file_list = t.file_list) :
    (load_data_sections_by_subject m fs s).1.file_list =
      (load_data_sections_by_subject m fs t).1.file_list ∧
    (load_data_sections_by_subject m fs s).2 =
      (load_data_sections_by_subject m fs t).2 := by
  obtain ⟨f1, p1, d1, r1, n1, sf1⟩ := s
  obtain ⟨f2, p2, d2, r2, n2, sf2⟩ := t
  simp only [Store.mk.injEq] at h hf
  subst h
  subst hf
  unfold load_data_sections_by_subject
  dsimp only
  by_cases hd : d1 = []
  · simp [hd]
  · rcases hr : load_sections_loop m d1 (List.map (fun p => p.1) d1) fs none with
      ⟨fl, fs2, warns, err⟩
    cases err with
    | some e => simp [hd, hr]
    | none =>
      cases fl with
      | none => simp [hd, hr]
      | some tb =>
        by_cases hz : tb.size = 0
        · simp [hd, hr, hz]
        · simp [hd, hr, hz]

/-- C2 (amended): `initialise` discards the prior tables up front rather than
on success: the resulting file table, partition table and error are entirely
independent of the stores prior state, and any failing call leaves the
partition table absent (and the file table reset or freshly merged), not the
previously held tables. -/
theorem initialise_discards_prior_tables (m : String → CsvRows)
    (sh : List String → List String) (fs : Fs)
    (dp : List (String × SectionConfig)) (np : Bool) (f : String)
    (rts : Option (List RatioVal)) (s1 s2 : Store) :
    (initialise m sh fs s1 dp np f rts).1.file_list =
      (initialise m sh fs s2 dp np f rts).1.file_list ∧
    (initialise m sh fs s1 dp np f rts).1.partition_ids =
      (initialise m sh fs s2 dp np f rts).1.partition_ids ∧
    (initialise m sh fs s1 dp np f rts).2.2.2 =
      (initialise m sh fs s2 dp np f rts).2.2.2 ∧
    (∀ e, (initialise m sh fs s1 dp np f rts).2.2.2 = some e →
      (initialise m sh fs s1 dp np f rts).1.partition_ids = none) := by
  obtain ⟨f1, p1, d1, r1, n1, sf1⟩ := s1
  obtain ⟨f2, p2, d2, r2, n2, sf2⟩ := s2
  set u1 : Store := ⟨none, none, dp, rts, n1, f⟩ with hu1
  set u2 : Store := ⟨none, none, dp, rts, n2, f⟩ with hu2
  have hcomp := load_components_eq m fs u1 u2 rfl rfl
  have hs1 := load_store_shape m fs u1
  have hs2 := load_store_shape m fs u2
  rcases h1 : load_data_sections_by_subject m fs u1 with ⟨a1, b1, w1, e1⟩
  rcases h2 : load_data_sections_by_subject m fs u2 with ⟨a2, b2, w2, e2⟩
  rw [h1, h2] at hcomp
  rw [h1] at hs1
  rw [h2] at hs2
  obtain ⟨hfl, htup⟩ := hcomp
  simp only [Prod.mk.injEq] at htup
  obtain ⟨hb, hw, he⟩ := htup
  dsimp only at hs1 hs2 hfl
  simp only [initialise]
  rw [← hu1, ← hu2, h1, h2]
  subst he
  subst hb
  subst hw
  cases e1 with
  | some e =>
    dsimp only
    refine ⟨hfl, ?_, rfl, ?_⟩
    · rw [hs1, hs2]
    · intro e2 _
      rw [hs1]
  | none =>
    have hs3 : ({ a1 with new_partition := np } : Store) =
        { a2 with new_partition := np } := by
      rw [hs1, hs2, hfl]
    have hpid3 : ({ a1 with new_partition := np } : Store).partition_ids =
        none := by
      rw [hs1]
    dsimp only
    refine ⟨?_, ?_, ?_, ?_⟩
    · rw [hs3]
    · rw [hs3]
    · rw [hs3]
    · intro e2 hre
      rcases randomly_split_pids_or_ok sh b1 { a1 with new_partition := np } np
        with hcase | hcase
      · rw [hcase, hpid3]
      · rw [hre] at hcase
        exact Option.noConfusion hcase


/-- A store holding prior tables from an earlier initialization. -/
def storePrior : Store :=
  ⟨some dfBA, some [("b", "train")], dpW1, none, false, "f.csv"⟩

/-- Counterexample to C2 as stated: a failing `initialise` (empty section
list) does not leave the prior tables in place — both tables are cleared
before the merge step runs, so the post-failure state differs from the
pre-call state. -/
theorem initialise_not_atomic_counterexample :
    (initialise mtrEmpty shufId fsEmpty storePrior [] false "f.csv" none).2.2.2 =
      some (.valueError nothingToLoadMsg) ∧
    (initialise mtrEmpty shufId fsEmpty storePrior [] false "f.csv" none).1.file_list =
      none ∧
    (initialise mtrEmpty shufId fsEmpty storePrior [] false "f.csv" none).1.partition_ids =
      none ∧
    storePrior.file_list ≠ none ∧ storePrior.partition_ids ≠ none := by
  refine ⟨by decide, by decide, by decide, by decide, by decide⟩

/-- Witness for the amended C2 at two concrete prior stores, one holding
tables and one empty, with a failing parameter set (the error path of the
final conjunct is exercised). -/
theorem initialise_discards_prior_tables_witness :
    ((initialise mtrEmpty shufId fsEmpty storePrior [] false "f.csv" none).1.file_list =
       (initialise mtrEmpty shufId fsEmpty storeEmpty [] false "f.csv" none).1.file_list ∧
     (initialise mtrEmpty shufId fsEmpty storePrior [] false "f.csv" none).1.partition_ids =
       (initialise mtrEmpty shufId fsEmpty storeEmpty [] false "f.csv" none).1.partition_ids ∧
     (initialise mtrEmpty shufId fsEmpty storePrior [] false "f.csv" none).2.2.2 =
       (initialise mtrEmpty shufId fsEmpty storeEmpty [] false "f.csv" none).2.2.2 ∧
     (∀ e, (initialise mtrEmpty shufId fsEmpty storePrior [] false "f.csv" none).2.2.2 =
         some e →
       (initialise mtrEmpty shufId fsEmpty storePrior [] false "f.csv" none).1.partition_ids =
         none)) ∧
    (initialise mtrEmpty shufId fsEmpty storePrior [] false "f.csv" none).1.partition_ids =
      none := by
  have h := initialise_discards_prior_tables mtrEmpty shufId fsEmpty [] false
    "f.csv" none storePrior storeEmpty
  exact ⟨h, h.2.2.2 (Err.valueError nothingToLoadMsg) (by decide)⟩


end NiftyNet
